import Mathlib

/-!
Shallow embedding of the scheduling core of the legal-SaaS backend:
the availability resolution engine (`get_calendar_availability` in
`app/modules/scheduling/services.py`), the schedule store
(`app/modules/availability/services.py` and `router.py`), the credential
lifecycle manager (`app/modules/scheduling/token_refresh.py`) and the
booking writer (`create_calendar_appointment`).  Instants are seconds
since 1970-01-01 00:00 UTC, calendar dates are day numbers since
1970-01-01 (a Thursday).  Database collections are passed in as values,
remote calls as outcome parameters; stateful operations return their
new state or a trace of the side effects they performed.
-/

namespace ProdLegalSaas

/-! ## String helpers shared by the embedded Python code -/

def emptyStr : String := ""

def colonStr : String := ":"

def commaSpace : String := ", "

def spaceStr : String := " "

/-- The digit test used by Python `int`: code points of `'0'`-`'9'`. -/
def isDigitB (c : Char) : Bool := decide (48 ≤ c.toNat ∧ c.toNat ≤ 57)

def digitsToNat (cs : List Char) : Nat := cs.foldl (fun a c => a * 10 + (c.toNat - 48)) 0

def digitsVal (cs : List Char) : Option Nat :=
  if cs ≠ [] ∧ cs.all isDigitB then some (digitsToNat cs) else none

def pyStripChars (cs : List Char) : List Char :=
  ((cs.dropWhile Char.isWhitespace).reverse.dropWhile Char.isWhitespace).reverse

/-- Python `int(s)` on an already stripped character list: an optional
sign followed by digits.  (Digit-grouping underscores are not modelled.) -/
def pySignedVal (cs : List Char) : Option Int :=
  match cs with
  | [] => none
  | c :: rest =>
    if c = '+' then (digitsVal rest).map (fun n => (n : Int))
    else if c = '-' then (digitsVal rest).map (fun n => -(n : Int))
    else (digitsVal cs).map (fun n => (n : Int))

/-- Python `int(s)` for a string given as its character list: surrounding
whitespace is tolerated. -/
def pyIntOf (cs : List Char) : Option Int := pySignedVal (pyStripChars cs)

/-- Python `s.split(':')` accumulator. -/
def splitColonAux : List Char → List Char → List (List Char)
  | [], acc => [acc.reverse]
  | c :: cs, acc => if c = ':' then acc.reverse :: splitColonAux cs [] else splitColonAux cs (c :: acc)

/-- Python `s.split(':')` on the character list of the string. -/
def splitColonList (cs : List Char) : List (List Char) := splitColonAux cs []

def splitColon (s : String) : List (List Char) := splitColonList s.toList

/-! ## Calendar arithmetic (the parts of Python `datetime` the code uses) -/

/-- `date.weekday()` (Monday = 0) of a day number since 1970-01-01,
which was a Thursday. -/
def pyWeekday (d : Nat) : Nat := (d + 3) % 7

def weekdayName (wd : Nat) : String :=
  match wd with
  | 0 => "Monday"
  | 1 => "Tuesday"
  | 2 => "Wednesday"
  | 3 => "Thursday"
  | 4 => "Friday"
  | 5 => "Saturday"
  | _ => "Sunday"

/-- Gregorian (year, month, day) of a day number since 1970-01-01
(standard civil-from-days algorithm; all intermediate divisions act on
non-negative values, so truncating `Int` division is exact). -/
def civilFromDays (z0 : Int) : Int × Int × Int :=
  let z := z0 + 719468
  let era := if 0 ≤ z then z / 146097 else (z - 146096) / 146097
  let doe := z - era * 146097
  let yoe := (doe - doe / 1460 + doe / 36524 - doe / 146096) / 365
  let y := yoe + era * 400
  let doy := doe - (365 * yoe + yoe / 4 - yoe / 100)
  let mp := (5 * doy + 2) / 153
  let d := doy - (153 * mp + 2) / 5 + 1
  let m := if mp < 10 then mp + 3 else mp - 9
  (if m ≤ 2 then y + 1 else y, m, d)

def monthName (m : Int) : String :=
  if m = 1 then "January"
  else if m = 2 then "February"
  else if m = 3 then "March"
  else if m = 4 then "April"
  else if m = 5 then "May"
  else if m = 6 then "June"
  else if m = 7 then "July"
  else if m = 8 then "August"
  else if m = 9 then "September"
  else if m = 10 then "October"
  else if m = 11 then "November"
  else "December"

def pad0 : String := "0"

def pad2 (n : Nat) : String := (if n < 10 then pad0 else emptyStr) ++ toString n

def atStr : String := " at "

def amStr : String := "AM"

def pmStr : String := "PM"

/-- Python `dt.strftime('%A, %B %d at %I:%M %p')` on the naive datetime
denoting `t` seconds since 1970-01-01 00:00 (line 482 of
`scheduling/services.py`). -/
def strftimeLabel (t : Nat) : String :=
  let day := t / 86400
  let sod := t % 86400
  let h := sod / 3600
  let mi := sod % 3600 / 60
  let civil := civilFromDays (day : Int)
  let h12 := if h % 12 = 0 then 12 else h % 12
  let ampm := if h < 12 then amStr else pmStr
  weekdayName (pyWeekday day) ++ commaSpace ++ monthName civil.2.1 ++ spaceStr ++
    pad2 civil.2.2.toNat ++ atStr ++ pad2 h12 ++ colonStr ++ pad2 mi ++ spaceStr ++ ampm

/-! ## Data model (availability/models.py, shared/models.py) -/

def hhmm0900 : String := "09:00"

def hhmm1700 : String := "17:00"

/-- `TimeSlot` of availability/models.py: one day's opening hours, the
times stored as `"HH:MM"` strings. -/
structure TimeSlot where
  enabled : Bool
  start_time : String
  end_time : String
deriving DecidableEq

def defaultEnabledSlot : TimeSlot :=
  { enabled := true, start_time := hhmm0900, end_time := hhmm1700 }

def defaultDisabledSlot : TimeSlot :=
  { enabled := false, start_time := hhmm0900, end_time := hhmm1700 }

/-- `WeeklySchedule` of availability/models.py. -/
structure WeeklySchedule where
  monday : TimeSlot
  tuesday : TimeSlot
  wednesday : TimeSlot
  thursday : TimeSlot
  friday : TimeSlot
  saturday : TimeSlot
  sunday : TimeSlot
deriving DecidableEq

/-- The pydantic defaults: Monday-Friday 09:00-17:00 enabled, weekends
disabled. -/
def defaultWeeklySchedule : WeeklySchedule :=
  { monday := defaultEnabledSlot, tuesday := defaultEnabledSlot,
    wednesday := defaultEnabledSlot, thursday := defaultEnabledSlot,
    friday := defaultEnabledSlot, saturday := defaultDisabledSlot,
    sunday := defaultDisabledSlot }

def tzLosAngeles : String := "America/Los_Angeles"

/-- `FirmAvailability` of availability/models.py (the fields the engine
reads; ids and timestamps carry no behaviour). -/
structure FirmAvailability where
  timezone : String
  weekly_schedule : WeeklySchedule
deriving DecidableEq

def defaultFirmAvailability : FirmAvailability :=
  { timezone := tzLosAngeles, weekly_schedule := defaultWeeklySchedule }

/-- One `BlockedDate` document; `dates` is the result of the
`date.fromisoformat` pair applied to its `start_date`/`end_date` strings,
as day numbers since 1970-01-01, and `none` when that parse raised
`ValueError`/`TypeError` (the loop at scheduling/services.py lines
412-424 then logs and skips the entry). -/
structure BlockedDate where
  dates : Option (Nat × Nat)
deriving DecidableEq

/-- `ConnectedCalendar`: the field `get_calendar_availability` reads. -/
structure ConnectedCalendar where
  calendar_id : Option String
deriving DecidableEq

/-- An available slot as returned by `get_calendar_availability`:
naive datetimes in seconds and the display label built at line 482. -/
structure Slot where
  start_time : Nat
  end_time : Nat
  formatted_time : String
deriving DecidableEq

/-! ## Availability resolution engine (get_calendar_availability) -/

/-- The blocked-date check of lines 410-427: first match wins, entries
whose dates failed to parse are skipped. -/
def dateIsBlocked (blocked : List BlockedDate) (d : Nat) : Bool :=
  blocked.any fun bd =>
    match bd.dates with
    | some (s, e) => decide (s ≤ d ∧ d ≤ e)
    | none => false

def dayScheduleFor (ws : WeeklySchedule) (wd : Nat) : TimeSlot :=
  match wd with
  | 0 => ws.monday
  | 1 => ws.tuesday
  | 2 => ws.wednesday
  | 3 => ws.thursday
  | 4 => ws.friday
  | 5 => ws.saturday
  | _ => ws.sunday

/-- Lines 436-442: `map(int, t.split(':'))` on the day's two stored time
strings, falling back to 9:00-17:00 when either raises. -/
def parseClockPair (s : String) : Option (Int × Int) :=
  match splitColon s with
  | [a, b] =>
    match pyIntOf a, pyIntOf b with
    | some h, some m => some (h, m)
    | _, _ => none
  | _ => none

def businessHoursOf (ts : TimeSlot) : Int × Int × Int × Int :=
  match parseClockPair ts.start_time, parseClockPair ts.end_time with
  | some (sh, sm), some (eh, em) => (sh, sm, eh, em)
  | _, _ => (9, 0, 17, 0)

/-- Whether day `d` contributes slots: the day schedule's `enabled` flag
(lines 430-433), or the weekday < 5 fallback of line 445 when no
availability record is loaded. -/
def dayEnabled (avail : Option FirmAvailability) (d : Nat) : Bool :=
  match avail with
  | some a => (dayScheduleFor a.weekly_schedule (pyWeekday d)).enabled
  | none => decide (pyWeekday d < 5)

/-- The business hours used for day `d` (lines 436-448). -/
def businessOf (avail : Option FirmAvailability) (d : Nat) : Int × Int × Int × Int :=
  match avail with
  | some a => businessHoursOf (dayScheduleFor a.weekly_schedule (pyWeekday d))
  | none => (9, 0, 17, 0)

def errBadTime : String := "hour or minute out of range"

def mkSlot (slotStart slotEnd : Nat) : Slot :=
  { start_time := slotStart, end_time := slotEnd,
    formatted_time := strftimeLabel slotStart }

/-- The hourly while-loop of lines 450-485.  `dayStart` is midnight of
the day in seconds; the fuel equals `end_hour - start_hour` so the loop
stops exactly when the current hour reaches `end_hour`.  An `error`
models the `ValueError` that `time().replace` raises on an out-of-range
hour or minute. -/
def hourLoop (dayStart now : Nat) (startHour startMin endHour endMin : Int)
    (busy : List (Nat × Nat)) : Nat → Int → Except String (List Slot)
  | 0, _ => .ok []
  | fuel + 1, h =>
    if h < endHour then
      let minute : Int := if h = startHour then startMin else 0
      if h < 0 ∨ 23 < h ∨ minute < 0 ∨ 59 < minute then .error errBadTime
      else
        let slotStart := dayStart + (h * 3600 + minute * 60).toNat
        let slotEnd := slotStart + 3600
        if endHour < 0 ∨ 23 < endHour ∨ endMin < 0 ∨ 59 < endMin then .error errBadTime
        else
          let businessEnd := dayStart + (endHour * 3600 + endMin * 60).toNat
          if businessEnd < slotEnd then .ok []
          else if slotStart ≤ now then
            hourLoop dayStart now startHour startMin endHour endMin busy fuel (h + 1)
          else if busy.all (fun b => !(decide (slotStart < b.2 ∧ b.1 < slotEnd))) then
            (hourLoop dayStart now startHour startMin endHour endMin busy fuel (h + 1)).map
              fun rest => mkSlot slotStart slotEnd :: rest
          else hourLoop dayStart now startHour startMin endHour endMin busy fuel (h + 1)
    else .ok []

/-- The day loop of lines 406-485 over `day_offset in range(days)`. -/
def dayLoop (now : Nat) (blocked : List BlockedDate) (avail : Option FirmAvailability)
    (busy : List (Nat × Nat)) : Nat → Nat → Except String (List Slot)
  | 0, _ => .ok []
  | n + 1, offset =>
    let checkDate := now / 86400 + offset
    let rest := dayLoop now blocked avail busy n (offset + 1)
    if dateIsBlocked blocked checkDate then rest
    else if !dayEnabled avail checkDate then rest
    else
      let hours := businessOf avail checkDate
      match hourLoop (checkDate * 86400) now hours.1 hours.2.1 hours.2.2.1 hours.2.2.2 busy
          (hours.2.2.1 - hours.1).toNat hours.1 with
      | .error e => .error e
      | .ok slots => rest.map fun more => slots ++ more

/-- Result class of token_refresh.py lines 14-22 (the credential field is
added further below where credentials are modelled; the engine only reads
these two flags). -/
structure TokenResultFlags where
  success : Bool
  needs_reauth : Bool
deriving DecidableEq

def errNoConnection : String := "No calendar connection found for this firm"

def errAuthExpired : String :=
  "Google Calendar authentication has expired. Please reconnect your calendar in the integrations settings."

def errAuthPre : String := "Calendar authentication error: "

def errAvailWrapPre : String := "Failed to get calendar availability: "

/-- `get_calendar_availability` (scheduling/services.py lines 360-491)
with its collaborators passed as values: the stored connection, the
credential result, the stored availability and blocked dates, and the
free/busy query's outcome (`error` = the remote query raised).  The
outer `except` re-raises every failure with a fixed text prefix. -/
def getCalendarAvailability (conn : Option ConnectedCalendar) (tokenResult : TokenResultFlags)
    (avail : Option FirmAvailability) (blocked : List BlockedDate)
    (busyFetch : Except String (List (Nat × Nat))) (now : Nat) (days : Nat) :
    Except String (List Slot) :=
  let inner : Except String (List Slot) :=
    match conn with
    | none => .error errNoConnection
    | some c =>
      if c.calendar_id.getD emptyStr = emptyStr then .error errNoConnection
      else if !tokenResult.success then
        .error (if tokenResult.needs_reauth then errAuthExpired else errAuthPre)
      else
        match busyFetch with
        | .error e => .error e
        | .ok busy => dayLoop now blocked avail busy days 0
  match inner with
  | .error e => .error (errAvailWrapPre ++ e)
  | .ok slots => .ok slots

/-! ## Credential lifecycle manager (scheduling/token_refresh.py) -/

def calendarScope : String := "https://www.googleapis.com/auth/calendar"

def statusActive : String := "active"

def statusNeedsReauth : String := "needs_reauth"

/-- The google `Credentials` object as built by the service; `expiry` is
a Nat instant in seconds (`none` = unknown). -/
structure PyCredentials where
  token : String
  refresh_token : Option String
  scopes : List String
  expiry : Option Nat
deriving DecidableEq

/-- `TokenRefreshResult` (token_refresh.py lines 14-22). -/
structure TokenRefreshResultM where
  success : Bool
  credentials : Option PyCredentials
  error : Option String
  needs_reauth : Bool
deriving DecidableEq

/-- The stored `connected_calendars` document, fields as
`get_valid_credentials` reads them (`none` = absent).  `token_expiry` is
stored by `update_connection_tokens` but — see `createCredentials` —
never read back on this path. -/
structure ConnectionDoc where
  token_status : Option String
  access_token : Option String
  refresh_token : Option String
  scopes : Option (List String)
  token_expiry : Option Nat
deriving DecidableEq

/-- `create_credentials` (lines 30-43).  The constructor call passes no
expiry, so the rebuilt credential's `expiry` is always `none`. -/
def createCredentials (access : String) (refresh : Option String)
    (scopes : Option (List String)) : PyCredentials :=
  { token := access, refresh_token := refresh,
    scopes := scopes.getD [calendarScope], expiry := none }

/-- `should_refresh_token` (lines 45-71); `now` in seconds, buffer in
minutes.  A missing or empty refresh token means "cannot refresh". -/
def shouldRefreshToken (creds : PyCredentials) (now bufferMinutes : Nat) : Bool :=
  if creds.refresh_token.getD emptyStr = emptyStr then false
  else
    match creds.expiry with
    | none => true
    | some exp => decide (exp ≤ now + bufferMinutes * 60)

/-- What the network call inside `credentials.refresh(Request())` did:
returned a (possibly unchanged) token, raised `RefreshError`, or raised
any other exception. -/
inductive RefreshOutcome
  | ok (newToken : String) (newExpiry : Option Nat)
  | refreshError (msg : String)
  | exn (msg : String)
deriving DecidableEq

/-- Python `pat in s` for strings. -/
def containsSub (s pat : String) : Bool := (s.splitOn pat).length != 1

def errNoRefreshTok : String := "No refresh token available"

def errNoNewToken : String := "No new token received after refresh"

def errInvalidGrant : String := "Refresh token expired or revoked"

def errInvalidClient : String := "OAuth client configuration error"

def grantPat : String := "invalid_grant"

def clientPat : String := "invalid_client"

def refreshFailedPre : String := "Token refresh failed: "

def unexpectedPre : String := "Unexpected refresh error: "

/-- `refresh_credentials` (lines 73-154); the second component reports
whether the network refresh call was actually made. -/
def refreshCredentials (creds : PyCredentials) (outcome : RefreshOutcome) :
    TokenRefreshResultM × Bool :=
  if creds.refresh_token.getD emptyStr = emptyStr then
    ({ success := false, credentials := none, error := some errNoRefreshTok,
       needs_reauth := true }, false)
  else
    match outcome with
    | .ok newTok newExp =>
      let c2 : PyCredentials := { creds with token := newTok, expiry := newExp }
      if newTok ≠ emptyStr ∧ newTok ≠ creds.token then
        ({ success := true, credentials := some c2, error := none, needs_reauth := false }, true)
      else if newTok = creds.token then
        ({ success := true, credentials := some c2, error := none, needs_reauth := false }, true)
      else
        ({ success := false, credentials := none, error := some errNoNewToken,
           needs_reauth := true }, true)
    | .refreshError m =>
      if containsSub m.toLower grantPat then
        ({ success := false, credentials := none, error := some errInvalidGrant,
           needs_reauth := true }, true)
      else if containsSub m.toLower clientPat then
        ({ success := false, credentials := none, error := some errInvalidClient,
           needs_reauth := true }, true)
      else
        ({ success := false, credentials := none, error := some (refreshFailedPre ++ m),
           needs_reauth := true }, true)
    | .exn m =>
      ({ success := false, credentials := none, error := some (unexpectedPre ++ m),
         needs_reauth := true }, true)

/-- The externally visible side effects of `get_valid_credentials`, in
execution order. -/
inductive CredEffect
  | buildCredentials
  | refreshCall
  | dbUpdateTokens
  | dbMarkReauth
deriving DecidableEq

def errNoConn : String := "No Google connection found"

def errConnNeedsReauth : String := "Connection needs re-authentication"

def errNoAccess : String := "No access token found"

/-- `get_valid_credentials` (lines 156-232).  The stored document and
the refresh call's behaviour are parameters; the trace lists the side
effects that executed, in order. -/
def getValidCredentials (conn : Option ConnectionDoc) (now : Nat) (outcome : RefreshOutcome) :
    TokenRefreshResultM × List CredEffect :=
  match conn with
  | none =>
    ({ success := false, credentials := none, error := some errNoConn,
       needs_reauth := true }, [])
  | some c =>
    if c.token_status.getD statusActive = statusNeedsReauth then
      ({ success := false, credentials := none, error := some errConnNeedsReauth,
         needs_reauth := true }, [])
    else if c.access_token.getD emptyStr = emptyStr then
      ({ success := false, credentials := none, error := some errNoAccess,
         needs_reauth := true }, [])
    else
      let creds := createCredentials (c.access_token.getD emptyStr) c.refresh_token c.scopes
      if shouldRefreshToken creds now 5 then
        let res := refreshCredentials creds outcome
        let callTrace := if res.2 then [CredEffect.refreshCall] else []
        if res.1.success then
          (res.1, CredEffect.buildCredentials :: callTrace ++ [CredEffect.dbUpdateTokens])
        else
          (res.1, CredEffect.buildCredentials :: callTrace ++ [CredEffect.dbMarkReauth])
      else
        ({ success := true, credentials := some creds, error := none, needs_reauth := false },
         [CredEffect.buildCredentials])

/-! ## Schedule store (availability/services.py) -/

/-- `get_firm_availability` (lines 32-76) acting on the
`firm_availability` documents of one firm, `find_one` reading the first:
returns the stored record, or synthesizes, inserts and returns the
default.  (The `except` branch that returns `None` on a storage failure
is outside this model.) -/
def getFirmAvailability (st : List FirmAvailability) :
    Option FirmAvailability × List FirmAvailability :=
  match st with
  | a :: rest => (some a, a :: rest)
  | [] => (some defaultFirmAvailability, [defaultFirmAvailability])

/-- `update_firm_availability` (lines 79-119): `update_one` with
`upsert=True` on the firm's single document. -/
def updateFirmAvailability (st : List FirmAvailability) (tz : String) (ws : WeeklySchedule) :
    FirmAvailability × List FirmAvailability :=
  match st with
  | _ :: rest => ({ timezone := tz, weekly_schedule := ws },
                  { timezone := tz, weekly_schedule := ws } :: rest)
  | [] => ({ timezone := tz, weekly_schedule := ws },
           [{ timezone := tz, weekly_schedule := ws }])

/-- `get_blocked_dates` (lines 122-140): the storage cursor's outcome is
the parameter; any exception is logged and yields `[]`. -/
def getBlockedDates (fetch : Except String (List BlockedDate)) : List BlockedDate :=
  match fetch with
  | .ok l => l
  | .error _ => []

/-! ## Schedule update endpoint (availability/router.py) -/

def tzDenver : String := "America/Denver"

def tzChicago : String := "America/Chicago"

def tzNewYork : String := "America/New_York"

def tzPhoenix : String := "America/Phoenix"

def tzAnchorage : String := "America/Anchorage"

def tzHonolulu : String := "Pacific/Honolulu"

def validTimezones : List String :=
  [tzLosAngeles, tzDenver, tzChicago, tzNewYork, tzPhoenix, tzAnchorage, tzHonolulu]

def invalidTzPre : String := "Invalid timezone. Must be one of: "

def invalidTzMsg : String := invalidTzPre ++ String.intercalate commaSpace validTimezones

def dayNameMon : String := "monday"

def dayNameTue : String := "tuesday"

def dayNameWed : String := "wednesday"

def dayNameThu : String := "thursday"

def dayNameFri : String := "friday"

def dayNameSat : String := "saturday"

def dayNameSun : String := "sunday"

/-- The `(day_name, day_schedule)` pairs iterated at router.py line 81,
in source order. -/
def dayEntries (ws : WeeklySchedule) : List (String × TimeSlot) :=
  [(dayNameMon, ws.monday), (dayNameTue, ws.tuesday), (dayNameWed, ws.wednesday),
   (dayNameThu, ws.thursday), (dayNameFri, ws.friday), (dayNameSat, ws.saturday),
   (dayNameSun, ws.sunday)]

def invalidFmtPre : String := "Invalid time format for "

def colonSpace : String := ": "

def msgInvalidFmt : String := "Invalid time format"

def msgInvalidStart : String := "Invalid start time"

def msgInvalidEnd : String := "Invalid end time"

def msgEndAfterStartPre : String := "End time must be after start time for "

/-- Stand-in for the message of the `ValueError` that Python `int`
raises on a non-numeric literal (its exact text embeds the literal and
carries no behaviour). -/
def msgIntValue : String := "invalid literal for int() with base 10"

/-- The per-day validation of router.py lines 82-110; `some detail` is
the HTTP 400 detail raised for this day. -/
def validateDay (nm : String) (ts : TimeSlot) : Option String :=
  if !ts.enabled then none
  else
    match splitColon ts.start_time, splitColon ts.end_time with
    | [a, b], [c, d] =>
      match pyIntOf a, pyIntOf b, pyIntOf c, pyIntOf d with
      | some sh, some sm, some eh, some em =>
        if ¬(0 ≤ sh ∧ sh ≤ 23 ∧ 0 ≤ sm ∧ sm ≤ 59) then
          some (invalidFmtPre ++ nm ++ colonSpace ++ msgInvalidStart)
        else if ¬(0 ≤ eh ∧ eh ≤ 23 ∧ 0 ≤ em ∧ em ≤ 59) then
          some (invalidFmtPre ++ nm ++ colonSpace ++ msgInvalidEnd)
        else if eh * 60 + em ≤ sh * 60 + sm then
          some (invalidFmtPre ++ nm ++ colonSpace ++ msgEndAfterStartPre ++ nm)
        else none
      | _, _, _, _ => some (invalidFmtPre ++ nm ++ colonSpace ++ msgIntValue)
    | _, _ => some (invalidFmtPre ++ nm ++ colonSpace ++ msgInvalidFmt)

def firstMsgAux : List (String × TimeSlot) → Option String
  | [] => none
  | (nm, ts) :: rest =>
    match validateDay nm ts with
    | some m => some m
    | none => firstMsgAux rest

/-- The first validation failure over the seven days, in source order. -/
def firstValidationMsg (ws : WeeklySchedule) : Option String := firstMsgAux (dayEntries ws)

inductive UpdateOutcome
  | ok (resp : FirmAvailability)
  | badRequest (detail : String)
deriving DecidableEq

/-- `update_availability` (router.py lines 65-130): timezone whitelist,
per-day validation, then the upsert.  The state is returned unchanged on
every 400. -/
def updateAvailability (st : List FirmAvailability) (tz : String) (ws : WeeklySchedule) :
    UpdateOutcome × List FirmAvailability :=
  if tz ∉ validTimezones then (.badRequest invalidTzMsg, st)
  else
    match firstValidationMsg ws with
    | some m => (.badRequest m, st)
    | none =>
      let r := updateFirmAvailability st tz ws
      (.ok r.1, r.2)

/-! ## Booking writer (create_calendar_appointment) -/

/-- The created remote event: its id and its conference entry points as
`(entryPointType, uri)` pairs. -/
structure EventResult where
  event_id : String
  entry_points : List (String × String)
deriving DecidableEq

def videoType : String := "video"

/-- The Google-Meet link extraction of lines 590-595. -/
def findMeetLink : List (String × String) → Option String
  | [] => none
  | (t, uri) :: rest => if t = videoType then some uri else findMeetLink rest

/-- The externally visible writes of `create_calendar_appointment`, in
execution order. -/
inductive BookEffect
  | remoteEventInsert
  | localAppointmentInsert
  | caseStatusUpdate
  | timelineRecord
deriving DecidableEq

structure BookingInfo where
  calendar_event_id : String
  meeting_link : Option String
deriving DecidableEq

def errApptWrapPre : String := "Failed to create calendar appointment: "

/-- `create_calendar_appointment` (scheduling/services.py lines 494-653)
with its collaborators as parameters: the stored connection, the
credential result, and the outcomes of the remote event insert and of
the timeline write (the latter is attempted either way and its failure
is swallowed).  The trace records the writes that executed, in order;
the event-body details (timezone, attendees, reminders) carry no
control flow and are not tracked. -/
def createCalendarAppointment (conn : Option ConnectedCalendar)
    (tokenResult : TokenResultFlags) (remote : Except String EventResult)
    (timeline : Except String Unit) : Except String BookingInfo × List BookEffect :=
  let inner : Except String BookingInfo × List BookEffect :=
    match conn with
    | none => (.error errNoConnection, [])
    | some c =>
      if c.calendar_id.getD emptyStr = emptyStr then (.error errNoConnection, [])
      else if !tokenResult.success then
        (.error (if tokenResult.needs_reauth then errAuthExpired else errAuthPre), [])
      else
        match remote with
        | .error e => (.error e, [BookEffect.remoteEventInsert])
        | .ok ev =>
          (.ok { calendar_event_id := ev.event_id, meeting_link := findMeetLink ev.entry_points },
           [BookEffect.remoteEventInsert, BookEffect.localAppointmentInsert,
            BookEffect.caseStatusUpdate, BookEffect.timelineRecord])
  -- lines 627-639: the timeline write's failure is logged and swallowed,
  -- so the result does not depend on `timeline` at all
  let _ := timeline
  match inner with
  | (.error e, tr) => (.error (errApptWrapPre ++ e), tr)
  | (.ok r, tr) => (.ok r, tr)

/-! ## Soundness of the slot generation loops -/

/-- Everything the engine guarantees about one returned slot of day `d`:
it survived the busy-overlap filter, lasts one hour, carries the naive
strftime label, lies strictly in the future, ends no later than the
day's business end, and starts at hour `hh` with the day-start minute in
the first business hour and minute 0 otherwise. -/
def SlotSpec (avail : Option FirmAvailability) (busy : List (Nat × Nat)) (now : Nat)
    (d : Nat) (s : Slot) : Prop :=
  (busy.all fun b => !(decide (s.start_time < b.2 ∧ b.1 < s.end_time))) = true ∧
  s.end_time = s.start_time + 3600 ∧
  s.formatted_time = strftimeLabel s.start_time ∧
  now < s.start_time ∧
  s.end_time ≤ d * 86400 + ((businessOf avail d).2.2.1 * 3600 + (businessOf avail d).2.2.2 * 60).toNat ∧
  ∃ hh : Int, 0 ≤ hh ∧ hh ≤ 23 ∧
    (0 : Int) ≤ (if hh = (businessOf avail d).1 then (businessOf avail d).2.1 else 0) ∧
    (if hh = (businessOf avail d).1 then (businessOf avail d).2.1 else 0) ≤ 59 ∧
    s.start_time = d * 86400 +
      (hh * 3600 + (if hh = (businessOf avail d).1 then (businessOf avail d).2.1 else 0) * 60).toNat

theorem hourLoop_sound (dayStart now : Nat) (sh sm eh em : Int) (busy : List (Nat × Nat)) :
    ∀ (fuel : Nat) (h0 : Int) (l : List Slot),
      hourLoop dayStart now sh sm eh em busy fuel h0 = .ok l →
      ∀ s ∈ l,
        (busy.all fun b => !(decide (s.start_time < b.2 ∧ b.1 < s.end_time))) = true ∧
        s.end_time = s.start_time + 3600 ∧
        s.formatted_time = strftimeLabel s.start_time ∧
        now < s.start_time ∧
        s.end_time ≤ dayStart + (eh * 3600 + em * 60).toNat ∧
        ∃ hh : Int, 0 ≤ hh ∧ hh ≤ 23 ∧
          (0 : Int) ≤ (if hh = sh then sm else 0) ∧ (if hh = sh then sm else 0) ≤ 59 ∧
          s.start_time = dayStart + (hh * 3600 + (if hh = sh then sm else 0) * 60).toNat := by
  intro fuel
  induction fuel with
  | zero =>
    intro h0 l hl s hs
    simp only [hourLoop] at hl
    cases hl
    simp at hs
  | succ n ih =>
    intro h0 l hl s hs
    simp only [hourLoop] at hl
    by_cases hlt : h0 < eh
    · rw [if_pos hlt] at hl
      by_cases hbad : h0 < 0 ∨ 23 < h0 ∨ (if h0 = sh then sm else 0) < 0 ∨ 59 < (if h0 = sh then sm else 0)
      · rw [if_pos hbad] at hl
        cases hl
      · rw [if_neg hbad] at hl
        by_cases hbad2 : eh < 0 ∨ 23 < eh ∨ em < 0 ∨ 59 < em
        · rw [if_pos hbad2] at hl
          cases hl
        · rw [if_neg hbad2] at hl
          by_cases hbreak :
              dayStart + (eh * 3600 + em * 60).toNat <
                dayStart + (h0 * 3600 + (if h0 = sh then sm else 0) * 60).toNat + 3600
          · rw [if_pos hbreak] at hl
            cases hl
            simp at hs
          · rw [if_neg hbreak] at hl
            by_cases hpast : dayStart + (h0 * 3600 + (if h0 = sh then sm else 0) * 60).toNat ≤ now
            · rw [if_pos hpast] at hl
              exact ih (h0 + 1) l hl s hs
            · rw [if_neg hpast] at hl
              by_cases hfree :
                  (busy.all fun b =>
                    !(decide (dayStart + (h0 * 3600 + (if h0 = sh then sm else 0) * 60).toNat < b.2 ∧
                      b.1 < dayStart + (h0 * 3600 + (if h0 = sh then sm else 0) * 60).toNat + 3600))) = true
              · rw [if_pos hfree] at hl
                cases hrec : hourLoop dayStart now sh sm eh em busy n (h0 + 1) with
                | error e => rw [hrec] at hl; cases hl
                | ok rest =>
                  rw [hrec] at hl
                  simp only [Except.map] at hl
                  cases hl
                  rcases List.mem_cons.mp hs with hhead | htail
                  · subst hhead
                    refine ⟨hfree, rfl, rfl, ?_, ?_, h0, by omega, by omega, by omega, by omega, rfl⟩
                    · show now < dayStart + (h0 * 3600 + (if h0 = sh then sm else 0) * 60).toNat
                      omega
                    · show dayStart + (h0 * 3600 + (if h0 = sh then sm else 0) * 60).toNat + 3600 ≤
                        dayStart + (eh * 3600 + em * 60).toNat
                      omega
                  · exact ih (h0 + 1) rest hrec s htail
              · rw [if_neg hfree] at hl
                exact ih (h0 + 1) l hl s hs
    · rw [if_neg hlt] at hl
      cases hl
      simp at hs

theorem dayLoop_sound (now : Nat) (blocked : List BlockedDate) (avail : Option FirmAvailability)
    (busy : List (Nat × Nat)) :
    ∀ (n offset : Nat) (l : List Slot), dayLoop now blocked avail busy n offset = .ok l →
    ∀ s ∈ l, ∃ d : Nat,
      dateIsBlocked blocked d = false ∧ dayEnabled avail d = true ∧
      s.start_time / 86400 = d ∧ SlotSpec avail busy now d s := by
  intro n
  induction n with
  | zero =>
    intro offset l hl s hs
    simp only [dayLoop] at hl
    cases hl
    simp at hs
  | succ n ih =>
    intro offset l hl s hs
    simp only [dayLoop] at hl
    split at hl
    next hblk => exact ih (offset + 1) l hl s hs
    next hblk =>
      split at hl
      next hen => exact ih (offset + 1) l hl s hs
      next hen =>
        split at hl
        next e heq => exact absurd hl (by simp)
        next slots heq =>
          cases hrest : dayLoop now blocked avail busy n (offset + 1) with
          | error e => rw [hrest] at hl; exact absurd hl (by simp [Except.map])
          | ok more =>
            rw [hrest] at hl
            simp only [Except.map] at hl
            cases hl
            rcases List.mem_append.mp hs with hmem | hmem
            · obtain ⟨hall, hdur, hfmt, hnow, hend, hh, hh0, hh23, hm0, hm59, hstart⟩ :=
                hourLoop_sound ((now / 86400 + offset) * 86400) now _ _ _ _ busy _ _ slots heq s hmem
              refine ⟨now / 86400 + offset, by simpa using hblk, by simpa using hen, by omega,
                hall, hdur, hfmt, hnow, hend, hh, hh0, hh23, hm0, hm59, hstart⟩
            · exact ih (offset + 1) more hrest s hmem

theorem getCalendarAvailability_sound (conn : Option ConnectedCalendar)
    (tokenResult : TokenResultFlags) (avail : Option FirmAvailability)
    (blocked : List BlockedDate) (busy : List (Nat × Nat)) (now days : Nat) (l : List Slot)
    (hok : getCalendarAvailability conn tokenResult avail blocked (.ok busy) now days = .ok l) :
    ∀ s ∈ l, ∃ d : Nat, dateIsBlocked blocked d = false ∧ dayEnabled avail d = true ∧
      s.start_time / 86400 = d ∧ SlotSpec avail busy now d s := by
  intro s hs
  simp only [getCalendarAvailability] at hok
  split at hok
  next e heq => exact absurd hok (by simp)
  next slots heq =>
    cases hok
    cases conn with
    | none => exact absurd heq (by simp)
    | some c =>
      simp only at heq
      split at heq
      next => exact absurd heq (by simp)
      next =>
        split at heq
        next => exact absurd heq (by simp)
        next => exact dayLoop_sound now blocked avail busy days 0 _ heq s hs

/-! ## Concrete scenario used by the witnesses and counterexamples:
Monday 1970-01-05, firm schedule Monday 09:30-12:00. -/

def calPrimary : String := "primary"

def connOk : ConnectedCalendar := { calendar_id := some calPrimary }

def tokOk : TokenResultFlags := { success := true, needs_reauth := false }

def sp0930 : String := "09:30"

def sp1200 : String := "12:00"

def mondaySlot0930 : TimeSlot := { enabled := true, start_time := sp0930, end_time := sp1200 }

def wsMon0930 : WeeklySchedule := { defaultWeeklySchedule with monday := mondaySlot0930 }

def availMon0930 : FirmAvailability :=
  { timezone := tzLosAngeles, weekly_schedule := wsMon0930 }

/-- 1970-01-05 (a Monday) 00:00, in seconds. -/
def mondayMidnight : Nat := 345600

/-- A busy interval 10:00-11:00 on that Monday. -/
def busyMon10 : Nat × Nat := (381600, 385200)

/-! ## C1, C3, C4, C9 -/

/-- C1: for every slot returned by the availability resolution engine
and every busy interval obtained from the remote calendar for the
window, it is not the case that `slot.start < b.end` and
`slot.end > b.start` — no returned slot overlaps any busy interval,
under half-open interval semantics. -/
theorem no_slot_overlaps_busy (conn : Option ConnectedCalendar) (tokenResult : TokenResultFlags)
    (avail : Option FirmAvailability) (blocked : List BlockedDate) (busy : List (Nat × Nat))
    (now days : Nat) (l : List Slot)
    (hok : getCalendarAvailability conn tokenResult avail blocked (.ok busy) now days = .ok l)
    (s : Slot) (hs : s ∈ l) (b : Nat × Nat) (hb : b ∈ busy) :
    ¬(s.start_time < b.2 ∧ s.end_time > b.1) := by
  obtain ⟨d, -, -, -, hall, -⟩ :=
    getCalendarAvailability_sound conn tokenResult avail blocked busy now days l hok s hs
  have hb2 := List.all_eq_true.mp hall b hb
  simp only [Bool.not_eq_true', decide_eq_false_iff_not] at hb2
  exact fun hcon => hb2 ⟨hcon.1, hcon.2⟩

/-- The single slot surviving the 10:00-11:00 busy interval: 11:00-12:00. -/
def slotMon11 : Slot := mkSlot 385200 388800

theorem no_slot_overlaps_busy_witness :
    ¬(slotMon11.start_time < busyMon10.2 ∧ slotMon11.end_time > busyMon10.1) :=
  no_slot_overlaps_busy (some connOk) tokOk (some availMon0930) [] [busyMon10]
    mondayMidnight 1 [slotMon11] rfl slotMon11 (by decide) busyMon10 (by decide)

/-- C3 counterexample: with Monday hours 09:30-12:00 the engine returns
candidate starts 09:30, 10:00 and 11:00 (seconds 379800, 381600,
385200).  The claim predicts candidates aligned to the day's start time
(09:30, 10:30, ...), but the second returned slot starts at the
wall-clock hour 10:00: it is neither the previous start plus one hour
nor offset by the day's start minute. -/
theorem slot_alignment_counterexample :
    (getCalendarAvailability (some connOk) tokOk (some availMon0930) [] (.ok []) mondayMidnight 1).map
        (List.map Slot.start_time) = .ok [379800, 381600, 385200] ∧
    businessOf (some availMon0930) 4 = (9, 30, 12, 0) ∧
    379800 = 4 * 86400 + (9 * 3600 + 30 * 60) ∧
    (381600 : Nat) ≠ 379800 + 3600 ∧
    (381600 - 4 * 86400) % 3600 ≠ 30 * 60 :=
  ⟨rfl, rfl, by decide, by decide, by decide⟩

/-- C3 amended: every returned slot lasts exactly one hour and ends no
later than its day's configured end time; and each slot either starts
exactly at the day's configured start time (the first business hour
keeps the start minute) or starts on a wall-clock hour boundary
(minute 0) — so when the day starts off the hour, only the first
candidate is aligned to the day's start and the first two candidates
overlap. -/
theorem slot_generation_amended (conn : Option ConnectedCalendar) (tokenResult : TokenResultFlags)
    (avail : Option FirmAvailability) (blocked : List BlockedDate) (busy : List (Nat × Nat))
    (now days : Nat) (l : List Slot)
    (hok : getCalendarAvailability conn tokenResult avail blocked (.ok busy) now days = .ok l)
    (s : Slot) (hs : s ∈ l) :
    s.end_time = s.start_time + 3600 ∧
    s.end_time ≤ (s.start_time / 86400) * 86400 +
      ((businessOf avail (s.start_time / 86400)).2.2.1 * 3600 +
        (businessOf avail (s.start_time / 86400)).2.2.2 * 60).toNat ∧
    (s.start_time = (s.start_time / 86400) * 86400 +
        ((businessOf avail (s.start_time / 86400)).1 * 3600 +
          (businessOf avail (s.start_time / 86400)).2.1 * 60).toNat ∨
      s.start_time % 3600 = 0) := by
  obtain ⟨d, -, -, hday, -, hdur, -, -, hend, hh, hh0, hh23, hm0, hm59, hstart⟩ :=
    getCalendarAvailability_sound conn tokenResult avail blocked busy now days l hok s hs
  rw [hday]
  refine ⟨hdur, hend, ?_⟩
  by_cases hsh : hh = (businessOf avail d).1
  · left
    rw [hstart, if_pos hsh, hsh]
  · right
    rw [hstart, if_neg hsh]
    omega

theorem slot_generation_amended_witness :
    slotMon11.end_time = slotMon11.start_time + 3600 ∧
    slotMon11.end_time ≤ (slotMon11.start_time / 86400) * 86400 +
      ((businessOf (some availMon0930) (slotMon11.start_time / 86400)).2.2.1 * 3600 +
        (businessOf (some availMon0930) (slotMon11.start_time / 86400)).2.2.2 * 60).toNat ∧
    (slotMon11.start_time = (slotMon11.start_time / 86400) * 86400 +
        ((businessOf (some availMon0930) (slotMon11.start_time / 86400)).1 * 3600 +
          (businessOf (some availMon0930) (slotMon11.start_time / 86400)).2.1 * 60).toNat ∨
      slotMon11.start_time % 3600 = 0) :=
  slot_generation_amended (some connOk) tokOk (some availMon0930) [] [busyMon10]
    mondayMidnight 1 [slotMon11] rfl slotMon11 (by decide)

/-- C4: for every blocked date range of the firm whose bounds parsed,
no returned slot falls on a covered calendar day, whatever the weekday's
enabled flag — the day is skipped entirely on the first matching range. -/
theorem blocked_day_yields_no_slots (conn : Option ConnectedCalendar)
    (tokenResult : TokenResultFlags) (avail : Option FirmAvailability)
    (blocked : List BlockedDate) (busy : List (Nat × Nat)) (now days : Nat) (l : List Slot)
    (hok : getCalendarAvailability conn tokenResult avail blocked (.ok busy) now days = .ok l)
    (s : Slot) (hs : s ∈ l) (bd : BlockedDate) (hbd : bd ∈ blocked)
    (r1 r2 : Nat) (hdates : bd.dates = some (r1, r2)) :
    ¬(r1 ≤ s.start_time / 86400 ∧ s.start_time / 86400 ≤ r2) := by
  obtain ⟨d, hblk, -, hday, -⟩ :=
    getCalendarAvailability_sound conn tokenResult avail blocked busy now days l hok s hs
  rw [hday]
  intro hcov
  simp only [dateIsBlocked, List.any_eq_false] at hblk
  have := hblk bd hbd
  rw [hdates] at this
  simp only [decide_eq_true_eq] at this
  exact this hcov

/-- A blocked range over days 100-200, away from the scenario Monday. -/
def blockedFar : BlockedDate := { dates := some (100, 200) }

theorem blocked_day_yields_no_slots_witness :
    ¬(100 ≤ slotMon11.start_time / 86400 ∧ slotMon11.start_time / 86400 ≤ 200) :=
  blocked_day_yields_no_slots (some connOk) tokOk (some availMon0930) [blockedFar] [busyMon10]
    mondayMidnight 1 [slotMon11] rfl slotMon11 (by decide) blockedFar (by decide)
    100 200 rfl

/-- C9 amended: every returned slot's display label is Python
`strftime('%A, %B %d at %I:%M %p')` applied to the slot's naive start
datetime directly — no timezone conversion is applied and the firm's
configured timezone is never consulted. -/
theorem label_is_naive_strftime (conn : Option ConnectedCalendar)
    (tokenResult : TokenResultFlags) (avail : Option FirmAvailability)
    (blocked : List BlockedDate) (busy : List (Nat × Nat)) (now days : Nat) (l : List Slot)
    (hok : getCalendarAvailability conn tokenResult avail blocked (.ok busy) now days = .ok l)
    (s : Slot) (hs : s ∈ l) :
    s.formatted_time = strftimeLabel s.start_time := by
  obtain ⟨d, -, -, -, -, -, hfmt, -⟩ :=
    getCalendarAvailability_sound conn tokenResult avail blocked busy now days l hok s hs
  exact hfmt

theorem label_is_naive_strftime_witness :
    slotMon11.formatted_time = strftimeLabel slotMon11.start_time :=
  label_is_naive_strftime (some connOk) tokOk (some availMon0930) [] [busyMon10]
    mondayMidnight 1 [slotMon11] rfl slotMon11 (by decide)

/-- Modelled from the spec: a label "formatted in the firm's configured
timezone" renders the instant shifted to that zone's local wall clock
before formatting; America/Los_Angeles (the firm's stored timezone) is
UTC-8 in January (standard time). -/
def labelInFirmTimezone (tz : String) (t : Nat) : String :=
  strftimeLabel (t - (if tz = tzLosAngeles then 28800 else 0))

def lblUtc0930 : String := "Monday, January 05 at 09:30 AM"

def lblLocal0130 : String := "Monday, January 05 at 01:30 AM"

/-- C9 counterexample: the engine labels the 09:30 slot with its naive
(UTC-based) wall clock, "09:30 AM"; the same instant formatted in the
firm's configured timezone (America/Los_Angeles) reads "01:30 AM" — the
returned label is not in the firm's timezone. -/
theorem label_not_in_firm_timezone :
    (getCalendarAvailability (some connOk) tokOk (some availMon0930) [] (.ok []) mondayMidnight 1).map
        (List.map Slot.formatted_time) = .ok [lblUtc0930, strftimeLabel 381600, strftimeLabel 385200] ∧
    availMon0930.timezone = tzLosAngeles ∧
    labelInFirmTimezone tzLosAngeles 379800 = lblLocal0130 ∧
    lblUtc0930 ≠ lblLocal0130 :=
  ⟨rfl, rfl, rfl, by decide⟩

/-! ## C10, C7 — schedule store -/

/-- C10: when the blocked-dates query raises, get_blocked_dates returns
the empty list instead of propagating, and an availability resolution
run during that failure is literally the resolution of a firm with zero
blocked dates. -/
theorem blocked_dates_failure_is_empty (e : String) (conn : Option ConnectedCalendar)
    (tokenResult : TokenResultFlags) (avail : Option FirmAvailability)
    (busyFetch : Except String (List (Nat × Nat))) (now days : Nat) :
    getBlockedDates (.error e) = [] ∧
    getCalendarAvailability conn tokenResult avail (getBlockedDates (.error e)) busyFetch now days =
      getCalendarAvailability conn tokenResult avail [] busyFetch now days :=
  ⟨rfl, rfl⟩

/-- C7: reading the schedule twice with no intervening update returns
identical weekly schedules and does not insert a second record: the
default document is persisted exactly once, on the first read of an
empty store, and a non-empty store is left untouched. -/
theorem get_schedule_idempotent (st : List FirmAvailability) :
    (getFirmAvailability (getFirmAvailability st).2).2 = (getFirmAvailability st).2 ∧
    (getFirmAvailability (getFirmAvailability st).2).1.map FirmAvailability.weekly_schedule =
      (getFirmAvailability st).1.map FirmAvailability.weekly_schedule ∧
    (st = [] → (getFirmAvailability st).2 = [defaultFirmAvailability]) ∧
    (st ≠ [] → (getFirmAvailability st).2 = st) := by
  cases st <;> simp [getFirmAvailability]

theorem get_schedule_idempotent_witness :
    (getFirmAvailability ([] : List FirmAvailability)).2 = [defaultFirmAvailability] ∧
    (getFirmAvailability (getFirmAvailability ([] : List FirmAvailability)).2).2 =
      (getFirmAvailability ([] : List FirmAvailability)).2 :=
  ⟨(get_schedule_idempotent []).2.2.1 rfl, (get_schedule_idempotent []).1⟩

/-! ## C5, C2 — credential lifecycle -/

/-- C5: a connection whose token_status is needs_reauth fails fast with
the needs-reauth error and an empty effect trace — no credential object
is built and no network or refresh call happens — whatever the refresh
call would have returned. -/
theorem needs_reauth_fails_fast (c : ConnectionDoc) (now : Nat) (outcome : RefreshOutcome)
    (h : c.token_status = some statusNeedsReauth) :
    getValidCredentials (some c) now outcome =
      ({ success := false, credentials := none, error := some errConnNeedsReauth,
         needs_reauth := true }, []) := by
  simp [getValidCredentials, h]

def tokenA : String := "stored-access-token"

def tokenR : String := "stored-refresh-token"

def reauthConn : ConnectionDoc :=
  { token_status := some statusNeedsReauth, access_token := some tokenA,
    refresh_token := some tokenR, scopes := none, token_expiry := some 99 }

theorem needs_reauth_fails_fast_witness :
    getValidCredentials (some reauthConn) 0 (.ok tokenA none) =
      ({ success := false, credentials := none, error := some errConnNeedsReauth,
         needs_reauth := true }, []) :=
  needs_reauth_fails_fast reauthConn 0 (.ok tokenA none) rfl

/-- C2 amended: when the stored connection has no (or an empty) refresh
token — and it is not marked needs_reauth and an access token exists —
get_valid_credentials always skips the refresh and succeeds with the
existing access token, whatever the stored expiry says: the stored
token_expiry is never attached to the rebuilt credential, so a
known-expired access token is not detected and never yields NeedsReauth. -/
theorem no_refresh_token_uses_access_token (c : ConnectionDoc) (now : Nat)
    (outcome : RefreshOutcome)
    (hstatus : c.token_status.getD statusActive ≠ statusNeedsReauth)
    (haccess : c.access_token.getD emptyStr ≠ emptyStr)
    (hrefresh : c.refresh_token.getD emptyStr = emptyStr) :
    getValidCredentials (some c) now outcome =
      ({ success := true,
         credentials := some (createCredentials (c.access_token.getD emptyStr) c.refresh_token c.scopes),
         error := none, needs_reauth := false },
       [CredEffect.buildCredentials]) := by
  simp [getValidCredentials, hstatus, haccess, shouldRefreshToken, createCredentials, hrefresh]

/-- An active connection with no refresh token whose stored expiry
(instant 0) is long past. -/
def noRefreshConn : ConnectionDoc :=
  { token_status := some statusActive, access_token := some tokenA,
    refresh_token := none, scopes := none, token_expiry := some 0 }

theorem no_refresh_token_uses_access_token_witness :
    getValidCredentials (some noRefreshConn) 1000000000 (.refreshError grantPat) =
      ({ success := true,
         credentials := some (createCredentials (noRefreshConn.access_token.getD emptyStr)
           noRefreshConn.refresh_token noRefreshConn.scopes),
         error := none, needs_reauth := false },
       [CredEffect.buildCredentials]) :=
  no_refresh_token_uses_access_token noRefreshConn 1000000000 (.refreshError grantPat)
    (by decide) (by decide) rfl

/-- C2 counterexample: this connection's stored expiry is instant 0,
long past at `now` = 10^9, and it has no refresh token — the claim
demands a NeedsReauth failure, yet get_valid_credentials succeeds and
does not signal needs_reauth. -/
theorem expired_without_refresh_token_still_succeeds :
    noRefreshConn.refresh_token = none ∧
    noRefreshConn.token_expiry = some 0 ∧ (0 : Nat) < 1000000000 ∧
    (getValidCredentials (some noRefreshConn) 1000000000 (.refreshError grantPat)).1.success = true ∧
    (getValidCredentials (some noRefreshConn) 1000000000 (.refreshError grantPat)).1.needs_reauth = false :=
  ⟨rfl, rfl, by decide, rfl, rfl⟩

/-! ## C8 — booking writer -/

/-- C8: when the remote calendar event write fails the booking aborts
with an error and the local appointment insert never executes; and a
local appointment insert only ever happens after the remote event write
succeeded. -/
theorem booking_aborts_on_remote_failure (conn : Option ConnectedCalendar)
    (tokenResult : TokenResultFlags) (remote : Except String EventResult)
    (timeline : Except String Unit) :
    (∀ e, remote = .error e →
      (∃ m, (createCalendarAppointment conn tokenResult remote timeline).1 = .error m) ∧
      BookEffect.localAppointmentInsert ∉ (createCalendarAppointment conn tokenResult remote timeline).2) ∧
    (BookEffect.localAppointmentInsert ∈ (createCalendarAppointment conn tokenResult remote timeline).2 →
      ∃ ev, remote = .ok ev) := by
  cases conn with
  | none => simp [createCalendarAppointment]
  | some c =>
    by_cases hcal : c.calendar_id.getD emptyStr = emptyStr
    · simp [createCalendarAppointment, hcal]
    · by_cases htok : tokenResult.success
      · cases remote with
        | error e => simp [createCalendarAppointment, hcal, htok]
        | ok ev => simp [createCalendarAppointment, hcal, htok]
      · simp [createCalendarAppointment, hcal, htok]

def eventFail : String := "remote insert failed"

theorem booking_aborts_on_remote_failure_witness :
    (∃ m, (createCalendarAppointment (some connOk) tokOk (.error eventFail) (.ok ())).1 = .error m) ∧
    BookEffect.localAppointmentInsert ∉
      (createCalendarAppointment (some connOk) tokOk (.error eventFail) (.ok ())).2 :=
  (booking_aborts_on_remote_failure (some connOk) tokOk (.error eventFail) (.ok ())).1 eventFail rfl

/-! ## C6 — schedule update validation -/

/-- Specification-side predicate, following the claim's words: a
strictly well-formed `"HH:MM"` string within 00:00-23:59 — two digits, a
colon, two digits, hour at most 23, minute at most 59. -/
def isStrictHHMM (s : String) : Bool :=
  match s.toList with
  | [a, b, c, d, e] =>
    isDigitB a && isDigitB b && decide (c = ':') && isDigitB d && isDigitB e &&
    decide ((a.toNat - 48) * 10 + (b.toNat - 48) ≤ 23) &&
    decide ((d.toNat - 48) * 10 + (e.toNat - 48) ≤ 59)
  | _ => false

/-- Minutes since midnight denoted by a strictly well-formed HH:MM
string. -/
def strictMinutes (s : String) : Nat :=
  match s.toList with
  | [a, b, _, d, e] =>
    ((a.toNat - 48) * 10 + (b.toNat - 48)) * 60 + ((d.toNat - 48) * 10 + (e.toNat - 48))
  | _ => 0

theorem isDigitB_facts (c : Char) (h : isDigitB c = true) :
    c ≠ ':' ∧ c ≠ '+' ∧ c ≠ '-' ∧ c.isWhitespace = false := by
  simp only [isDigitB, decide_eq_true_eq] at h
  refine ⟨?_, ?_, ?_, ?_⟩
  · intro hc; subst hc; exact absurd h (by decide)
  · intro hc; subst hc; exact absurd h (by decide)
  · intro hc; subst hc; exact absurd h (by decide)
  · by_contra hw
    simp only [Bool.not_eq_false, Char.isWhitespace, Bool.or_eq_true, decide_eq_true_eq] at hw
    rcases hw with ((hc | hc) | hc) | hc <;> (subst hc; exact absurd h (by decide))

theorem pyIntOf_two_digits (x y : Char) (hx : isDigitB x = true) (hy : isDigitB y = true) :
    pyIntOf [x, y] = some (((x.toNat - 48) * 10 + (y.toNat - 48) : Nat) : Int) := by
  obtain ⟨-, hxp, hxm, hxw⟩ := isDigitB_facts x hx
  obtain ⟨-, -, -, hyw⟩ := isDigitB_facts y hy
  have hstrip : pyStripChars [x, y] = [x, y] := by
    simp [pyStripChars, List.dropWhile, hxw, hyw]
  have hall : [x, y] ≠ [] ∧ [x, y].all isDigitB = true := by simp [hx, hy]
  have hval : digitsToNat [x, y] = (x.toNat - 48) * 10 + (y.toNat - 48) := by
    simp [digitsToNat]
  rw [pyIntOf, hstrip]
  simp only [pySignedVal, if_neg hxp, if_neg hxm, digitsVal, if_pos hall, hval, Option.map_some]
  simp

theorem splitColon_strict (a b d e : Char) (ha : a ≠ ':') (hb : b ≠ ':')
    (hd : d ≠ ':') (he : e ≠ ':') :
    splitColonList [a, b, ':', d, e] = [[a, b], [d, e]] := by
  simp [splitColonList, splitColonAux, ha, hb, hd, he]

theorem strict_shape (s : String) (h : isStrictHHMM s = true) :
    ∃ a b d e, s.toList = [a, b, ':', d, e] ∧ isDigitB a = true ∧ isDigitB b = true ∧
      isDigitB d = true ∧ isDigitB e = true ∧
      (a.toNat - 48) * 10 + (b.toNat - 48) ≤ 23 ∧ (d.toNat - 48) * 10 + (e.toNat - 48) ≤ 59 ∧
      strictMinutes s =
        ((a.toNat - 48) * 10 + (b.toNat - 48)) * 60 + ((d.toNat - 48) * 10 + (e.toNat - 48)) := by
  rw [isStrictHHMM] at h
  rcases hls : s.toList with - | ⟨a, - | ⟨b, - | ⟨c, - | ⟨d, - | ⟨e, - | ⟨f, rest⟩⟩⟩⟩⟩⟩ <;>
    rw [hls] at h
  · simp at h
  · simp at h
  · simp at h
  · simp at h
  · simp at h
  · simp only [Bool.and_eq_true, decide_eq_true_eq] at h
    obtain ⟨⟨⟨⟨⟨⟨ha, hb⟩, hc⟩, hd⟩, he⟩, hh⟩, hm⟩ := h
    subst hc
    refine ⟨a, b, d, e, rfl, ha, hb, hd, he, hh, hm, ?_⟩
    simp only [strictMinutes, hls]
  · simp at h

/-- A strictly well-formed pair of times with start < end passes the
router's per-day validation. -/
theorem validateDay_of_strict (nm : String) (ts : TimeSlot)
    (hs : isStrictHHMM ts.start_time = true) (he : isStrictHHMM ts.end_time = true)
    (hlt : strictMinutes ts.start_time < strictMinutes ts.end_time) :
    validateDay nm ts = none := by
  obtain ⟨a1, b1, d1, e1, hl1, ha1, hb1, hd1, he1, hh1, hm1, hmin1⟩ := strict_shape _ hs
  obtain ⟨a2, b2, d2, e2, hl2, ha2, hb2, hd2, he2, hh2, hm2, hmin2⟩ := strict_shape _ he
  rw [validateDay]
  cases hen : ts.enabled
  · simp
  · simp only [Bool.not_true, Bool.false_eq_true, if_false, splitColon, hl1, hl2,
      splitColon_strict a1 b1 d1 e1 (isDigitB_facts a1 ha1).1 (isDigitB_facts b1 hb1).1
        (isDigitB_facts d1 hd1).1 (isDigitB_facts e1 he1).1,
      splitColon_strict a2 b2 d2 e2 (isDigitB_facts a2 ha2).1 (isDigitB_facts b2 hb2).1
        (isDigitB_facts d2 hd2).1 (isDigitB_facts e2 he2).1,
      pyIntOf_two_digits a1 b1 ha1 hb1, pyIntOf_two_digits d1 e1 hd1 he1,
      pyIntOf_two_digits a2 b2 ha2 hb2, pyIntOf_two_digits d2 e2 hd2 he2]
    rw [hmin1, hmin2] at hlt
    split
    next hcon => exfalso; omega
    next =>
      split
      next hcon => exfalso; omega
      next =>
        split
        next hcon => exfalso; omega
        next => rfl

theorem validateDay_some (nm : String) (ts : TimeSlot) (m : String)
    (h : validateDay nm ts = some m) :
    ts.enabled = true ∧ ∃ suffix, m = invalidFmtPre ++ nm ++ suffix := by
  rw [validateDay] at h
  cases hen : ts.enabled
  · rw [hen] at h; simp at h
  · refine ⟨rfl, ?_⟩
    rw [hen] at h
    simp only [Bool.not_true, Bool.false_eq_true, if_false] at h
    split at h
    · split at h
      · split at h
        · cases h; exact ⟨colonSpace ++ msgInvalidStart, by simp [String.append_assoc]⟩
        · split at h
          · cases h; exact ⟨colonSpace ++ msgInvalidEnd, by simp [String.append_assoc]⟩
          · split at h
            · cases h
              exact ⟨colonSpace ++ (msgEndAfterStartPre ++ nm), by simp [String.append_assoc]⟩
            · exact Option.noConfusion h
      · cases h; exact ⟨colonSpace ++ msgIntValue, by simp [String.append_assoc]⟩
    · cases h; exact ⟨colonSpace ++ msgInvalidFmt, by simp [String.append_assoc]⟩

theorem firstMsgAux_some :
    ∀ (l : List (String × TimeSlot)) (m : String),
      firstMsgAux l = some m → ∃ p ∈ l, validateDay p.1 p.2 = some m := by
  intro l
  induction l with
  | nil => intro m h; simp [firstMsgAux] at h
  | cons p rest ih =>
    intro m h
    rw [firstMsgAux] at h
    split at h
    next heq => exact ⟨p, List.mem_cons_self p rest, by rw [heq, h]⟩
    next heq =>
      obtain ⟨q, hq, hval⟩ := ih m h
      exact ⟨q, List.mem_cons_of_mem p hq, hval⟩

theorem validateDay_ok (nm : String) (ts : TimeSlot)
    (h : ts.enabled = true →
      isStrictHHMM ts.start_time = true ∧ isStrictHHMM ts.end_time = true ∧
      strictMinutes ts.start_time < strictMinutes ts.end_time) :
    validateDay nm ts = none := by
  cases hen : ts.enabled
  · rw [validateDay, hen]; simp
  · obtain ⟨h1, h2, h3⟩ := h hen
    exact validateDay_of_strict nm ts h1 h2 h3

/-- C6 amended: with a whitelisted timezone, an update whose enabled
days all carry strictly well-formed in-range HH:MM times with
start < end is accepted and upserted; and every rejected update leaves
the store unchanged and its error message is the per-day validation
message of some enabled offending day, beginning
"Invalid time format for <day>".  (What the code enforces per enabled
day is the lenient check — two ':'-separated fields that Python `int`
accepts, values in 0-23/0-59, start before end — not strict HH:MM
well-formedness; see the counterexample.) -/
theorem update_schedule_validation (st : List FirmAvailability) (tz : String) (ws : WeeklySchedule)
    (htz : tz ∈ validTimezones) :
    ((∀ p ∈ dayEntries ws, p.2.enabled = true →
        isStrictHHMM p.2.start_time = true ∧ isStrictHHMM p.2.end_time = true ∧
        strictMinutes p.2.start_time < strictMinutes p.2.end_time) →
      updateAvailability st tz ws =
        (.ok { timezone := tz, weekly_schedule := ws },
         { timezone := tz, weekly_schedule := ws } :: st.tail)) ∧
    (∀ m, (updateAvailability st tz ws).1 = .badRequest m →
      (updateAvailability st tz ws).2 = st ∧
      ∃ p ∈ dayEntries ws, p.2.enabled = true ∧ validateDay p.1 p.2 = some m ∧
        ∃ suffix, m = invalidFmtPre ++ p.1 ++ suffix) := by
  constructor
  · intro hall
    have hnone : firstValidationMsg ws = none := by
      simp only [firstValidationMsg, dayEntries, firstMsgAux,
        validateDay_ok dayNameMon ws.monday (fun h => (hall (dayNameMon, ws.monday) (by simp [dayEntries]) h)),
        validateDay_ok dayNameTue ws.tuesday (fun h => (hall (dayNameTue, ws.tuesday) (by simp [dayEntries]) h)),
        validateDay_ok dayNameWed ws.wednesday (fun h => (hall (dayNameWed, ws.wednesday) (by simp [dayEntries]) h)),
        validateDay_ok dayNameThu ws.thursday (fun h => (hall (dayNameThu, ws.thursday) (by simp [dayEntries]) h)),
        validateDay_ok dayNameFri ws.friday (fun h => (hall (dayNameFri, ws.friday) (by simp [dayEntries]) h)),
        validateDay_ok dayNameSat ws.saturday (fun h => (hall (dayNameSat, ws.saturday) (by simp [dayEntries]) h)),
        validateDay_ok dayNameSun ws.sunday (fun h => (hall (dayNameSun, ws.sunday) (by simp [dayEntries]) h))]
    simp only [updateAvailability, if_neg (not_not_intro htz), hnone]
    cases st <;> rfl
  · intro m hm
    cases hmsg : firstValidationMsg ws with
    | none =>
      simp only [updateAvailability, if_neg (not_not_intro htz), hmsg] at hm
      exact absurd hm (by simp)
    | some m0 =>
      simp only [updateAvailability, if_neg (not_not_intro htz), hmsg,
        UpdateOutcome.badRequest.injEq] at hm
      subst hm
      obtain ⟨p, hp, hval⟩ := firstMsgAux_some (dayEntries ws) m0
        (by rw [firstValidationMsg] at hmsg; exact hmsg)
      obtain ⟨hen, suffix, hsuf⟩ := validateDay_some p.1 p.2 m0 hval
      refine ⟨?_, p, hp, hen, hval, suffix, hsuf⟩
      simp only [updateAvailability, if_neg (not_not_intro htz), hmsg]

theorem update_schedule_validation_witness :
    updateAvailability [] tzLosAngeles defaultWeeklySchedule =
      (.ok { timezone := tzLosAngeles, weekly_schedule := defaultWeeklySchedule },
       [{ timezone := tzLosAngeles, weekly_schedule := defaultWeeklySchedule }]) :=
  (update_schedule_validation [] tzLosAngeles defaultWeeklySchedule (by decide)).1 (by decide)

def spLenient : String := " 9:30"

def wsLenient : WeeklySchedule :=
  { defaultWeeklySchedule with
    monday := { enabled := true, start_time := spLenient, end_time := hhmm1700 } }

/-- C6 counterexample: `" 9:30"` is not a well-formed HH:MM string, yet
an update carrying it on the enabled Monday is accepted and applied
(Python `int` tolerates surrounding whitespace), where the claim demands
a validation error naming monday and no stored change. -/
theorem lenient_time_accepted_counterexample :
    isStrictHHMM spLenient = false ∧
    wsLenient.monday.enabled = true ∧
    updateAvailability [] tzLosAngeles wsLenient =
      (.ok { timezone := tzLosAngeles, weekly_schedule := wsLenient },
       [{ timezone := tzLosAngeles, weekly_schedule := wsLenient }]) :=
  ⟨rfl, rfl, rfl⟩

end ProdLegalSaas
